import Mathlib

/-!
Verification development for the Santorini Blue booking core
(`src/js/app.js`).  The pure computational heart of the page —
night counting, date-range validation, quantity validation with
JavaScript `Number()` string semantics, the price engine, the summary
projection, the quantity stepper, the checkout payload builder, and the
persisted-payload readers — is embedded as executable Lean definitions,
and the specified properties are proved about them.

Modelling conventions:
* a parsed `Date` is its millisecond timestamp, an `Int`
  (`parseISODate` results are `Option Int`: `none` models `null`);
* JavaScript numbers that the relevant code paths produce are exact, so
  they are embedded as `ℚ` (for `Number()` parse results) or `Nat`/`Int`
  (for counts, prices and timestamps);
* DOM reads/writes are replaced by explicit arguments and results;
  an error `alert`/modal plus field clearing is a typed error value.
-/

/-- Embeds `calcNights` (src/js/app.js lines 44-48): `ms = checkOut - checkIn`;
if `ms > 0` the result is `Math.ceil(ms / 86400000)`, otherwise `0`. -/
def calcNights (checkIn checkOut : Int) : Nat :=
  let ms := checkOut - checkIn
  if 0 < ms then (⌈mkRat ms 86400000⌉).toNat else 0

/-- Embeds the `!checkIn || !checkOut` guard of `calcNights` (line 45):
a `null` date yields `0` nights. -/
def calcNightsOpt (checkIn checkOut : Option Int) : Nat :=
  match checkIn, checkOut with
  | some i, some o => calcNights i o
  | _, _ => 0

/-- Typed names for the date-validation failures of `validateDates`
(src/js/app.js lines 59-81); each corresponds to one
`showErrorAndClear` message in the source. -/
inductive DateError where
  | missingDate
  | checkInInPast
  | checkOutInPast
  | checkOutNotAfterCheckIn
deriving DecidableEq, Repr

/-- Result of a date validation: success, or a typed failure. -/
inductive DateCheck where
  | ok
  | err (e : DateError)
deriving DecidableEq, Repr

/-- Embeds `validateDates` (src/js/app.js lines 59-81): unparsable dates
fail first; then `inDate < today`, then `outDate < today`, then
`outDate <= inDate`, in that order.  `today` is already normalized to
midnight by the caller. -/
def validateDates (inDate outDate : Option Int) (today : Int) : DateCheck :=
  match inDate, outDate with
  | some i, some o =>
    if i < today then .err .checkInInPast
    else if o < today then .err .checkOutInPast
    else if o ≤ i then .err .checkOutNotAfterCheckIn
    else .ok
  | _, _ => .err .missingDate

/-- Quantities per room type, the `{std, sup, fam}` record passed to
`computeTotal` (src/js/app.js line 129). -/
structure Qty where
  std : Nat
  sup : Nat
  fam : Nat
deriving DecidableEq, Repr

/-- Embeds `computeTotal` (src/js/app.js lines 133-138) with the fixed
`PRICES = {std: 200, sup: 300, fam: 400}` table; `nights || 0` over a
natural number is the number itself. -/
def computeTotal (qty : Qty) (nights : Nat) : Nat :=
  let sub := qty.std * 200 + qty.sup * 300 + qty.fam * 400
  sub * nights

/-- Embeds `stepQty`'s clamping core (src/js/app.js lines 159-169) on the
numeric value of the field: `val = value + delta`, then `if (val < min)
val = min`, then `if (val > max) val = max`. -/
def stepQty (value delta min max : Int) : Int :=
  let val := value + delta
  let val2 := if val < min then min else val
  if max < val2 then max else val2

/-- Drops JavaScript-trimmable whitespace from both ends of a character
list; models `String.prototype.trim()` on the ASCII inputs a date/number
field produces. -/
def trimChars (cs : List Char) : List Char :=
  ((cs.dropWhile Char.isWhitespace).reverse.dropWhile Char.isWhitespace).reverse

/-- Value of a list of decimal digit characters, most significant first. -/
def natOfDigits (cs : List Char) : Nat :=
  cs.foldl (fun a c => a * 10 + (c.toNat - 48)) 0

/-- Value of one digit character in the given base (supporting the hex
letters of a JavaScript `0x` literal), or `none` if out of range. -/
def digitVal (base : Nat) (c : Char) : Option Nat :=
  let v : Option Nat :=
    if '0' ≤ c ∧ c ≤ '9' then some (c.toNat - 48)
    else if 'a' ≤ c ∧ c ≤ 'z' then some (c.toNat - 87)
    else if 'A' ≤ c ∧ c ≤ 'Z' then some (c.toNat - 55)
    else none
  match v with
  | some d => if d < base then some d else none
  | none => none

/-- Parses a non-empty all-digit string in the given base, as the
`0x`/`0o`/`0b` arms of the ECMAScript `StringNumericLiteral` grammar
require; any stray character rejects the whole input. -/
def parseRadix (base : Nat) (cs : List Char) : Option Nat :=
  match cs with
  | [] => none
  | _ => cs.foldlM (fun a c => (digitVal base c).map (fun d => a * base + d)) 0

/-- Parses the exponent part of a decimal literal (after the `e`/`E`):
an optional sign followed by at least one digit, consuming everything. -/
def parseExp (cs : List Char) : Option Int :=
  match cs with
  | '+' :: rest => (parseRadix 10 rest).map (fun n => (n : Int))
  | '-' :: rest => (parseRadix 10 rest).map (fun n => -(n : Int))
  | _ => (parseRadix 10 cs).map (fun n => (n : Int))

/-- Exact rational value of a decimal literal with integer-part digits
`ip`, fraction-part digits `fp` and decimal exponent `ex`: the number
`ip.fp × 10 ^ ex`, assembled with integer arithmetic only. -/
def decValue (ip fp : List Char) (ex : Int) : ℚ :=
  let mant := natOfDigits (ip ++ fp)
  if 0 ≤ ex then mkRat (mant * 10 ^ ex.toNat) (10 ^ fp.length)
  else mkRat mant (10 ^ (fp.length + (-ex).toNat))

/-- Parses an unsigned ECMAScript decimal literal
(`digits [. digits] [exp]` or `. digits [exp]`) to its exact rational
value, consuming the entire input. -/
def parseDec (cs : List Char) : Option ℚ :=
  let ip := cs.takeWhile Char.isDigit
  let rest := cs.dropWhile Char.isDigit
  match rest with
  | [] => if ip.isEmpty then none else some (decValue ip [] 0)
  | c :: rest2 =>
    if c = '.' then
      let fp := rest2.takeWhile Char.isDigit
      let rest3 := rest2.dropWhile Char.isDigit
      if ip.isEmpty ∧ fp.isEmpty then none
      else
        match rest3 with
        | [] => some (decValue ip fp 0)
        | e :: rest4 =>
          if e = 'e' ∨ e = 'E' then (parseExp rest4).map (fun ex => decValue ip fp ex)
          else none
    else if (c = 'e' ∨ c = 'E') ∧ ¬ ip.isEmpty then
      (parseExp rest2).map (fun ex => decValue ip [] ex)
    else none

/-- A JavaScript number as far as `Number(string)` can produce one on
these code paths: `NaN`, an infinity, or an exact finite value. -/
inductive JSNum where
  | nan
  | posInf
  | negInf
  | fin (q : ℚ)
deriving DecidableEq, Repr

/-- Result of the `0x`/`0o`/`0b` arms of `Number(string)`. -/
def radixNum (base : Nat) (cs : List Char) : JSNum :=
  match parseRadix base cs with
  | some n => .fin (n : ℚ)
  | none => .nan

/-- Unsigned part of a `StrDecimalLiteral`: `Infinity` or a decimal
literal; the sign has already been stripped. -/
def unsignedNum (neg : Bool) (cs : List Char) : JSNum :=
  if cs = "Infinity".toList then (if neg then .negInf else .posInf)
  else
    match parseDec cs with
    | some q => .fin (if neg then -q else q)
    | none => .nan

/-- A `StrDecimalLiteral`: optional sign, then `Infinity` or a decimal
literal. -/
def signedDec (cs : List Char) : JSNum :=
  match cs with
  | '+' :: rest => unsignedNum false rest
  | '-' :: rest => unsignedNum true rest
  | _ => unsignedNum false cs

/-- ECMAScript `Number(string)` on an already-trimmed character list:
empty means `0`; `0x`/`0X`, `0o`/`0O`, `0b`/`0B` radix literals take
precedence (and admit no sign); otherwise a signed decimal literal or
`Infinity`; anything else is `NaN`. -/
def jsStrToNumList (cs : List Char) : JSNum :=
  match cs with
  | [] => .fin 0
  | '0' :: c :: rest =>
    if c = 'x' ∨ c = 'X' then radixNum 16 rest
    else if c = 'o' ∨ c = 'O' then radixNum 8 rest
    else if c = 'b' ∨ c = 'B' then radixNum 2 rest
    else signedDec ('0' :: c :: rest)
  | cs => signedDec cs

/-- Is this exact JavaScript number an integer (`Number.isInteger` on a
finite exact value)? -/
def isIntegerQ (q : ℚ) : Bool := q.den = 1

/-- Embeds `validateRoomQty` (src/js/app.js lines 90-105) on the field's
raw string and the parsed `min`/`max` bounds (`Number(input.min ?? 0)`,
`Number(input.max ?? 9)`, i.e. `0` and `9` for the booking form):
trim, empty means `0` with no error; `Number(raw)` that is `NaN`, not an
integer, below `min` or above `max` signals the invalid-quantity error
and yields `0`; otherwise the parsed number itself.  The `Bool`
component records whether `showErrorAndClear` fired. -/
def validateRoomQty (raw : String) (min max : ℚ) : ℚ × Bool :=
  let cs := trimChars raw.toList
  if cs = [] then (0, false)
  else
    match jsStrToNumList cs with
    | .fin num =>
      if isIntegerQ num ∧ min ≤ num ∧ num ≤ max then (num, false) else (0, true)
    | _ => (0, true)

example : validateRoomQty "0x5" 0 9 = (5, false) := by decide
example : validateRoomQty "1e0" 0 9 = (1, false) := by decide
example : validateRoomQty "2.5" 0 9 = (0, true) := by decide
example : validateRoomQty "12" 0 9 = (0, true) := by decide
example : validateRoomQty "" 0 9 = (0, false) := by decide
example : validateRoomQty " 7 " 0 9 = (7, false) := by decide
example : validateRoomQty "abc" 0 9 = (0, true) := by decide
example : validateRoomQty "-1" 0 9 = (0, true) := by decide
example : validateRoomQty "Infinity" 0 9 = (0, true) := by decide
example : validateRoomQty "-0x5" 0 9 = (0, true) := by decide
example : validateRoomQty "0" 0 9 = (0, false) := by decide
example : validateRoomQty "5." 0 9 = (5, false) := by decide
example : validateRoomQty ".5" 0 9 = (0, true) := by decide
example : validateRoomQty "1e+1" 0 9 = (0, true) := by decide
example : validateRoomQty "0b101" 0 9 = (5, false) := by decide

/-- Embeds `pluralize` (src/js/app.js lines 148-149) with the default
plural (`singular + "s"`). -/
def pluralize (n : Nat) (singular : String) : String :=
  if n = 1 then "1 " ++ singular else toString n ++ " " ++ singular ++ "s"

/-- One line item of the booking summary: the `{id, text}` records built
by `updateSummary` (src/js/app.js lines 206-209). -/
structure SummaryItem where
  id : String
  text : String
deriving DecidableEq, Repr

/-- Embeds the `items` list of `updateSummary` (src/js/app.js lines
206-209): one entry per room type with quantity `> 0`, pushed in the
fixed order std, sup, fam. -/
def summaryItems (stdQty supQty famQty : Nat) : List SummaryItem :=
  (if stdQty > 0 then [⟨"std", pluralize stdQty "Standard Room"⟩] else []) ++
  (if supQty > 0 then [⟨"sup", pluralize supQty "Superior Room"⟩] else []) ++
  (if famQty > 0 then [⟨"fam", pluralize famQty "Family Room"⟩] else [])

/-- Embeds `hasItems = items.length > 0` (src/js/app.js line 221). -/
def hasAnySelection (stdQty supQty famQty : Nat) : Bool :=
  (summaryItems stdQty supQty famQty).length > 0

/-- Embeds the advisory toggle `warn.hidden = hasItems` (src/js/app.js
lines 220-224): the "please add rooms" warning is visible exactly when
it is not hidden. -/
def advisoryShown (stdQty supQty famQty : Nat) : Bool :=
  !(hasAnySelection stdQty supQty famQty)

/-- One `rooms` entry of the checkout payload (src/js/app.js lines
672-674): `{id, name, qty, price}`. -/
structure Room where
  id : String
  name : String
  qty : Nat
  price : Nat
deriving DecidableEq, Repr

/-- The record built by `buildCheckoutData` and stored under
`sb_checkout` (src/js/app.js lines 669-678). -/
structure CheckoutData where
  checkin : String
  checkout : String
  nights : Nat
  rooms : List Room
  totalRooms : Nat
  total : Nat
deriving DecidableEq, Repr

/-- Embeds the `rooms` array literal of `buildCheckoutData` (src/js/app.js
lines 671-675): each room type spreads one entry when its quantity is
truthy (nonzero), in the fixed order std, sup, fam, carrying the fixed
unit price. -/
def checkoutRooms (stdQty supQty famQty : Nat) : List Room :=
  (if stdQty ≠ 0 then [⟨"std", "Standard Room", stdQty, 200⟩] else []) ++
  (if supQty ≠ 0 then [⟨"sup", "Superior Room", supQty, 300⟩] else []) ++
  (if famQty ≠ 0 then [⟨"fam", "Family Suite", famQty, 400⟩] else [])

/-- Embeds `buildCheckoutData` (src/js/app.js lines 653-679) on the raw
date strings, their parse results, and the validated quantities. -/
def buildCheckoutData (checkin checkout : String) (inDate outDate : Option Int)
    (stdQty supQty famQty : Nat) : CheckoutData :=
  let nights := calcNightsOpt inDate outDate
  { checkin := checkin
    checkout := checkout
    nights := nights
    rooms := checkoutRooms stdQty supQty famQty
    totalRooms := stdQty + supQty + famQty
    total := computeTotal ⟨stdQty, supQty, famQty⟩ nights }

/-- Typed names for the failures of the `btn-continue` click handler
(src/js/app.js lines 681-712), one per `showModal` message. -/
inductive CheckoutError where
  | missingDates
  | checkInInPast
  | checkOutInPast
  | checkOutNotAfterCheckIn
  | noRoomsSelected
deriving DecidableEq, Repr

/-- Outcome of the `btn-continue` click: on `ok`, the payload is written
to the `sb_checkout` slot and the page navigates to `payment.html`; on
`err`, nothing is persisted and no navigation occurs. -/
inductive CheckoutResult where
  | ok (d : CheckoutData)
  | err (e : CheckoutError)
deriving DecidableEq, Repr

/-- Embeds the `btn-continue` click handler (src/js/app.js lines
681-712): build the payload, then check missing dates, check-in in the
past, check-out in the past, `nights <= 0`, and `totalRooms === 0`, in
that order; only when all checks pass is the payload persisted. -/
def continueClick (checkin checkout : String) (inDate outDate : Option Int) (today : Int)
    (stdQty supQty famQty : Nat) : CheckoutResult :=
  let data := buildCheckoutData checkin checkout inDate outDate stdQty supQty famQty
  match inDate, outDate with
  | some i, some o =>
    if i < today then .err .checkInInPast
    else if o < today then .err .checkOutInPast
    else if data.nights ≤ 0 then .err .checkOutNotAfterCheckIn
    else if data.totalRooms = 0 then .err .noRoomsSelected
    else .ok data
  | _, _ => .err .missingDates

/-- State of the persisted `sb_checkout` slot as a reader finds it:
absent (`localStorage.getItem` returned `null`), malformed (present but
`JSON.parse` throws), or a parsed payload record. -/
inductive Slot where
  | absent
  | malformed
  | payload (d : CheckoutData)
deriving DecidableEq, Repr

/-- Embeds the payment-page guard (src/js/app.js lines 868-885): the
parse of the slot falls back to `{}` when absent or malformed, and the
page redirects to `booking.html` when `!data || !data.total ||
!data.rooms || !data.rooms.length`; on a parsed payload that is
`total == 0` (falsy total) or an empty `rooms` list. -/
def payPageRedirects (s : Slot) : Bool :=
  match s with
  | .absent => true
  | .malformed => true
  | .payload d => decide (d.total = 0) || d.rooms.isEmpty

/-- Embeds `restoreFromCheckout` (src/js/app.js lines 384-412): the parse
falls back to `null` when the slot is absent or malformed, in which case
the function returns before touching any field (`none`); otherwise it
applies the payload to the form (`some`). -/
def restoreFromCheckout (s : Slot) : Option CheckoutData :=
  match s with
  | .absent => none
  | .malformed => none
  | .payload d => some d

example : summaryItems 2 0 1 =
    [⟨"std", "2 Standard Rooms"⟩, ⟨"fam", "1 Family Room"⟩] := by decide
example : hasAnySelection 0 0 0 = false := by decide
example : advisoryShown 0 0 0 = true := by decide
example : calcNights 0 86400000 = 1 := by decide
example : calcNights 0 86400001 = 2 := by decide
example : calcNights 0 0 = 0 := by decide
example : calcNights 86400000 0 = 0 := by decide
example : computeTotal ⟨2, 1, 0⟩ 3 = 2100 := by decide
example : continueClick "a" "b" (some 0) (some 86400000) 0 0 0 0 =
    .err .noRoomsSelected := by decide
example : continueClick "a" "b" (some 0) (some 86400000) 0 1 0 0 =
    .ok (buildCheckoutData "a" "b" (some 0) (some 86400000) 1 0 0) := by decide
example : validateDates (some 0) (some 0) 1 = .err .checkInInPast := by decide

/-- C1: for every quantity mapping `q` (std, sup, fam each a non-negative
integer) and every integer `nights ≥ 0`, `computeTotal q nights` equals
`(q.std*200 + q.sup*300 + q.fam*400) * nights`; in particular
`computeTotal q 0 = 0` regardless of `q`, and
`computeTotal {std:2, sup:1, fam:0} 3 = 2100`. -/
theorem computeTotal_formula (q : Qty) (nights : Nat) :
    computeTotal q nights = (q.std * 200 + q.sup * 300 + q.fam * 400) * nights ∧
    computeTotal q 0 = 0 ∧
    computeTotal ⟨2, 1, 0⟩ 3 = 2100 := by
  refine ⟨rfl, ?_, by decide⟩
  simp [computeTotal]

/-- C8: `computeTotal` is linear in nights: for every fixed quantity
mapping `q` and every `n ≥ 0`, `computeTotal q (2*n) = 2 * computeTotal q n`. -/
theorem computeTotal_linear_in_nights (q : Qty) (n : Nat) :
    computeTotal q (2 * n) = 2 * computeTotal q n := by
  simp only [computeTotal]
  ring

/-- C2: for every pair of parsed dates with check-out strictly after
check-in, `calcNights` equals the ceiling of the millisecond difference
divided by 86 400 000 and is at least `1` (a partial-day difference
rounds up to a full night); for check-out ≤ check-in the result is `0`. -/
theorem calcNights_ceil_pos (checkIn checkOut : Int) :
    (checkIn < checkOut →
      calcNights checkIn checkOut = (⌈((checkOut - checkIn : Int) : ℚ) / 86400000⌉).toNat ∧
      1 ≤ calcNights checkIn checkOut) ∧
    (checkOut ≤ checkIn → calcNights checkIn checkOut = 0) := by
  constructor
  · intro h
    have hms : 0 < checkOut - checkIn := by omega
    have hdiv : mkRat (checkOut - checkIn) 86400000 =
        ((checkOut - checkIn : Int) : ℚ) / 86400000 := by
      rw [Rat.mkRat_eq_div]
      norm_num
    have heq : calcNights checkIn checkOut =
        (⌈((checkOut - checkIn : Int) : ℚ) / 86400000⌉).toNat := by
      simp only [calcNights, if_pos hms, hdiv]
    refine ⟨heq, ?_⟩
    have hq : (0 : ℚ) < ((checkOut - checkIn : Int) : ℚ) / 86400000 := by
      apply div_pos
      · exact_mod_cast hms
      · norm_num
    have hceil : 0 < ⌈((checkOut - checkIn : Int) : ℚ) / 86400000⌉ :=
      Int.ceil_pos.mpr hq
    omega
  · intro h
    have hms : ¬ 0 < checkOut - checkIn := by omega
    simp [calcNights, hms]

/-- C2 witness: one millisecond past a full day still counts as a second
night (`calcNights 0 86400001 = 2 ≥ 1`). -/
theorem calcNights_ceil_pos_witness :
    calcNights 0 86400001 = (⌈((86400001 - 0 : Int) : ℚ) / 86400000⌉).toNat ∧
    1 ≤ calcNights 0 86400001 :=
  (calcNights_ceil_pos 0 86400001).1 (by decide)

/-- C3 counterexample: for the pair check-in = check-out = time 0 with
today = 1, both dates are in the past and check-out ≤ check-in, yet
`validateDates` fails with `checkInInPast`, not with
`checkOutNotAfterCheckIn` — the past-date checks run first, refuting the
claim's quantification over pairs with a date in the past. -/
theorem validateDates_past_pair_counterexample :
    validateDates (some 0) (some 0) 1 = .err .checkInInPast ∧
    (0 : Int) ≤ 0 ∧ (0 : Int) < 1 ∧
    validateDates (some 0) (some 0) 1 ≠ .err .checkOutNotAfterCheckIn := by
  decide

/-- C3 (amended): the checks are ordered — `validateDates` fails with
`checkInInPast` when check-in < today; with `checkOutInPast` when
check-in ≥ today and check-out < today; and with
`checkOutNotAfterCheckIn` when neither date precedes today and
check-out ≤ check-in.  The universal clause about pairs with
check-out ≤ check-in therefore holds for the pairs in which neither
date is in the past. -/
theorem validateDates_ordered_errors (inDate outDate today : Int) :
    (inDate < today →
      validateDates (some inDate) (some outDate) today = .err .checkInInPast) ∧
    (today ≤ inDate → outDate < today →
      validateDates (some inDate) (some outDate) today = .err .checkOutInPast) ∧
    (today ≤ inDate → today ≤ outDate → outDate ≤ inDate →
      validateDates (some inDate) (some outDate) today = .err .checkOutNotAfterCheckIn) := by
  refine ⟨?_, ?_, ?_⟩
  · intro h
    simp [validateDates, h]
  · intro h1 h2
    have hn : ¬ inDate < today := by omega
    simp [validateDates, hn, h2]
  · intro h1 h2 h3
    have hn1 : ¬ inDate < today := by omega
    have hn2 : ¬ outDate < today := by omega
    simp [validateDates, hn1, hn2, h3]

/-- C3 witness: with today = 0, check-in = 10, check-out = 5 (both in the
future, check-out ≤ check-in) the amended claim yields
`checkOutNotAfterCheckIn`. -/
theorem validateDates_ordered_errors_witness :
    validateDates (some 10) (some 5) 0 = .err .checkOutNotAfterCheckIn :=
  (validateDates_ordered_errors 10 5 0).2.2 (by decide) (by decide) (by decide)

/-- C9: the stepper silently clamps — for every starting numeric field
value `v` and `delta ∈ {+1, -1}`, `stepQty` returns
`min (max (v + delta) 0) 9` with the default bounds `0` and `9`, so the
result is always within bounds and no error is signalled (the source has
no error path: out-of-range results are moved to the nearest bound, not
reset to `0`). -/
theorem stepQty_clamps (v delta : Int) (h : delta = 1 ∨ delta = -1) :
    stepQty v delta 0 9 = min (max (v + delta) 0) 9 ∧
    0 ≤ stepQty v delta 0 9 ∧ stepQty v delta 0 9 ≤ 9 := by
  simp only [stepQty]
  split_ifs <;> omega

/-- C9 witness: stepping up from 9 stays at the upper bound 9. -/
theorem stepQty_clamps_witness :
    stepQty 9 1 0 9 = min (max (9 + 1) 0) 9 ∧
    0 ≤ stepQty 9 1 0 9 ∧ stepQty 9 1 0 9 ≤ 9 :=
  stepQty_clamps 9 1 (Or.inl rfl)

/-- C5: for every triple of validated quantities, the summary's line
items are exactly the room types with quantity > 0, in the fixed order
std, sup, fam (stated as equality with the filtered canonical list), and
the "no rooms selected" advisory is shown if and only if the line-item
list is empty, with `hasAnySelection = (lineItems.length > 0)`. -/
theorem summaryItems_filter_order (stdQty supQty famQty : Nat) :
    ((summaryItems stdQty supQty famQty).map SummaryItem.id =
      (([("std", stdQty), ("sup", supQty), ("fam", famQty)] : List (String × Nat)).filter
        (fun p => decide (0 < p.2))).map Prod.fst) ∧
    (hasAnySelection stdQty supQty famQty = true ↔
      summaryItems stdQty supQty famQty ≠ []) ∧
    (advisoryShown stdQty supQty famQty = true ↔
      summaryItems stdQty supQty famQty = []) := by
  rcases Nat.eq_zero_or_pos stdQty with h1 | h1 <;>
  rcases Nat.eq_zero_or_pos supQty with h2 | h2 <;>
  rcases Nat.eq_zero_or_pos famQty with h3 | h3 <;>
    simp [summaryItems, hasAnySelection, advisoryShown, h1, h2, h3]

/-- C4: quantity validation is total (never raises): for every raw input
string, an empty-after-trim input yields `0` with no error; a parse that
is `NaN`/infinite, a finite non-integer (e.g. `"2.5"` is rejected, not
rounded), or an integer outside `[0, 9]` (e.g. `"12"`, which is not
clamped to the bound) yields `0` with the invalid-quantity error
signalled; otherwise the result is the parsed integer itself. -/
theorem validateRoomQty_total_spec (raw : String) :
    (trimChars raw.toList = [] → validateRoomQty raw 0 9 = (0, false)) ∧
    (∀ q : ℚ, trimChars raw.toList ≠ [] →
      jsStrToNumList (trimChars raw.toList) = .fin q →
      ((q.den = 1 ∧ 0 ≤ q ∧ q ≤ 9) → validateRoomQty raw 0 9 = (q, false)) ∧
      (¬ (q.den = 1 ∧ 0 ≤ q ∧ q ≤ 9) → validateRoomQty raw 0 9 = (0, true))) ∧
    ((∀ q : ℚ, jsStrToNumList (trimChars raw.toList) ≠ .fin q) →
      validateRoomQty raw 0 9 = (0, true)) ∧
    validateRoomQty "2.5" 0 9 = (0, true) ∧
    validateRoomQty "12" 0 9 = (0, true) := by
  refine ⟨?_, ?_, ?_, by decide, by decide⟩
  · intro h
    simp only [String.toList] at h
    simp [validateRoomQty, h]
  · intro q hne hfin
    simp only [String.toList] at hne hfin
    constructor
    · intro hcond
      simp [validateRoomQty, hne, hfin, isIntegerQ, hcond.1, hcond.2.1, hcond.2.2]
    · intro hcond
      have hnc : ¬ (isIntegerQ q = true ∧ (0 : ℚ) ≤ q ∧ q ≤ 9) := by
        simp only [isIntegerQ, decide_eq_true_eq]
        exact hcond
      simp [validateRoomQty, hne, hfin, hnc]
  · intro hnofin
    rcases hval : jsStrToNumList (trimChars raw.toList) with _ | _ | _ | q
    · have hne : trimChars raw.toList ≠ [] := by
        intro hz
        rw [hz] at hval
        exact absurd hval (by decide)
      simp only [String.toList] at hne hval
      simp [validateRoomQty, hne, hval]
    · have hne : trimChars raw.toList ≠ [] := by
        intro hz
        rw [hz] at hval
        exact absurd hval (by decide)
      simp only [String.toList] at hne hval
      simp [validateRoomQty, hne, hval]
    · have hne : trimChars raw.toList ≠ [] := by
        intro hz
        rw [hz] at hval
        exact absurd hval (by decide)
      simp only [String.toList] at hne hval
      simp [validateRoomQty, hne, hval]
    · exact absurd hval (hnofin q)

/-- C4 witness: the empty field means "none requested" (`0`, no error),
and a plain in-range integer is returned unchanged. -/
theorem validateRoomQty_total_spec_witness :
    validateRoomQty "" 0 9 = (0, false) ∧ validateRoomQty "7" 0 9 = (7, false) :=
  ⟨(validateRoomQty_total_spec "").1 rfl,
   ((validateRoomQty_total_spec "7").2.1 7 (by decide) (by decide)).1 (by decide)⟩

/-- C10: `validateRoomQty` accepts any string that JavaScript's
`Number()` parses to an in-range integer, not only decimal notation:
the hex literal `"0x5"` yields `5` and the scientific literal `"1e0"`
yields `1`, neither signalling the invalid-quantity error. -/
theorem validateRoomQty_nonDecimal_accepted :
    validateRoomQty "0x5" 0 9 = (5, false) ∧
    validateRoomQty "1e0" 0 9 = (1, false) := by
  decide

theorem checkoutRooms_eq_filter (stdQty supQty famQty : Nat) :
    checkoutRooms stdQty supQty famQty =
      (([⟨"std", "Standard Room", stdQty, 200⟩,
         ⟨"sup", "Superior Room", supQty, 300⟩,
         ⟨"fam", "Family Suite", famQty, 400⟩] : List Room).filter
        (fun r => decide (0 < r.qty))) := by
  rcases Nat.eq_zero_or_pos stdQty with h1 | h1 <;>
  rcases Nat.eq_zero_or_pos supQty with h2 | h2 <;>
  rcases Nat.eq_zero_or_pos famQty with h3 | h3 <;>
    simp [checkoutRooms, ← Nat.pos_iff_ne_zero, h1, h2, h3]

theorem checkoutRooms_ids_eq_summary_ids (stdQty supQty famQty : Nat) :
    (checkoutRooms stdQty supQty famQty).map Room.id =
      (summaryItems stdQty supQty famQty).map SummaryItem.id := by
  rcases Nat.eq_zero_or_pos stdQty with h1 | h1 <;>
  rcases Nat.eq_zero_or_pos supQty with h2 | h2 <;>
  rcases Nat.eq_zero_or_pos famQty with h3 | h3 <;>
    simp [checkoutRooms, summaryItems, ← Nat.pos_iff_ne_zero, h1, h2, h3]

/-- C6: with every quantity zero the continue click never persists a
payload (it always fails), and — once the date checks pass — it fails
precisely with `noRoomsSelected`; on success the payload's rooms list
mirrors the summary line items (same quantity > 0 filter, same
std/sup/fam order) with each entry carrying the fixed unit price
(200/300/400) plus id, name and quantity, not a computed subtotal. -/
theorem continueClick_noRooms_and_mirror (checkin checkout : String)
    (inDate outDate : Option Int) (today : Int) (stdQty supQty famQty : Nat) :
    (stdQty = 0 → supQty = 0 → famQty = 0 →
      ∃ e, continueClick checkin checkout inDate outDate today stdQty supQty famQty =
        .err e) ∧
    (∀ i o, inDate = some i → outDate = some o → today ≤ i → today ≤ o →
      0 < calcNights i o → stdQty = 0 → supQty = 0 → famQty = 0 →
      continueClick checkin checkout inDate outDate today stdQty supQty famQty =
        .err .noRoomsSelected) ∧
    (∀ d, continueClick checkin checkout inDate outDate today stdQty supQty famQty =
        .ok d →
      d.rooms = (([⟨"std", "Standard Room", stdQty, 200⟩,
                   ⟨"sup", "Superior Room", supQty, 300⟩,
                   ⟨"fam", "Family Suite", famQty, 400⟩] : List Room).filter
                  (fun r => decide (0 < r.qty))) ∧
      d.rooms.map Room.id = (summaryItems stdQty supQty famQty).map SummaryItem.id) := by
  refine ⟨?_, ?_, ?_⟩
  · intro h1 h2 h3
    rcases inDate with _ | i
    · exact ⟨.missingDates, rfl⟩
    rcases outDate with _ | o
    · exact ⟨.missingDates, rfl⟩
    simp only [continueClick]
    split_ifs with hc1 hc2 hc3 hc4
    · exact ⟨.checkInInPast, rfl⟩
    · exact ⟨.checkOutInPast, rfl⟩
    · exact ⟨.checkOutNotAfterCheckIn, rfl⟩
    · exact ⟨.noRoomsSelected, rfl⟩
    · exfalso
      apply hc4
      simp [buildCheckoutData, h1, h2, h3]
  · intro i o hi ho hti hto hn h1 h2 h3
    subst hi ho h1 h2 h3
    have hc1 : ¬ i < today := by omega
    have hc2 : ¬ o < today := by omega
    simp [continueClick, hc1, hc2, buildCheckoutData, calcNightsOpt]
    omega
  · intro d hd
    rcases inDate with _ | i
    · exact absurd hd (by simp [continueClick])
    rcases outDate with _ | o
    · exact absurd hd (by simp [continueClick])
    simp only [continueClick] at hd
    split_ifs at hd
    have hrooms : d.rooms = checkoutRooms stdQty supQty famQty := by
      cases hd
      rfl
    rw [hrooms, checkoutRooms_eq_filter]
    exact ⟨rfl, by rw [← checkoutRooms_eq_filter, checkoutRooms_ids_eq_summary_ids]⟩

/-- C6 witness: a one-night stay with no rooms selected fails with
`noRoomsSelected` (nothing persisted). -/
theorem continueClick_noRooms_and_mirror_witness :
    continueClick "2025-01-10" "2025-01-11" (some 0) (some 86400000) 0 0 0 0 =
      .err .noRoomsSelected :=
  (continueClick_noRooms_and_mirror "2025-01-10" "2025-01-11"
      (some 0) (some 86400000) 0 0 0 0).2.1
    0 86400000 rfl rfl (by decide) (by decide) (by decide) rfl rfl rfl

/-- A well-formed persisted payload with a non-empty rooms list but a
zero (falsy) total, for the C7 counterexample. -/
def zeroTotalPayload : CheckoutData :=
  ⟨"2025-01-10", "2025-01-12", 2, [⟨"std", "Standard Room", 1, 200⟩], 1, 0⟩

/-- C7 counterexample: the payment-page guard also redirects on a
present, parsable payload whose rooms list is non-empty, merely because
its `total` is `0` (falsy) — so "redirects in exactly those cases
(absent, malformed, empty rooms)" fails. -/
theorem payPageRedirects_counterexample :
    payPageRedirects (.payload zeroTotalPayload) = true ∧
    zeroTotalPayload.rooms ≠ [] ∧
    Slot.payload zeroTotalPayload ≠ .absent ∧
    Slot.payload zeroTotalPayload ≠ .malformed := by
  decide

/-- C7 (amended): the payment page redirects exactly when the slot is
absent, malformed, or holds a payload with an empty rooms list **or a
zero (falsy) total**, and renders otherwise; the booking page's restore
step does nothing on an absent or malformed payload and applies a parsed
one. -/
theorem slot_readers_spec (s : Slot) :
    (payPageRedirects s = true ↔
      s = .absent ∨ s = .malformed ∨
      ∃ d, s = .payload d ∧ (d.total = 0 ∨ d.rooms = [])) ∧
    restoreFromCheckout .absent = none ∧
    restoreFromCheckout .malformed = none ∧
    (∀ d, restoreFromCheckout (.payload d) = some d) := by
  refine ⟨?_, rfl, rfl, fun d => rfl⟩
  rcases s with _ | _ | d <;>
    simp [payPageRedirects, List.isEmpty_iff]
